import Mathlib

/-!
Shallow embedding of the CSS selector builder (`Selector` class and
`cssSelectorBuilder` facade) of this repository.

JavaScript `null`-able string fields become `Option String`; JavaScript
truthiness of a string field (`if (this.element_val)`) is `truthy` below:
`null` and the empty string are falsy, every other string is truthy.
Methods mutate the receiver and may throw, so each method is embedded as
`Selector → Selector × Option SelErr`: the returned state is the receiver
after the call (including mutations performed before a throw), and the
second component is the error thrown, if any.
-/

/-- JavaScript truthiness of a nullable string: `null` and `""` are falsy. -/
def truthy : Option String → Bool
  | none => false
  | some s => s != ""

/-- The constant kind list stored in `this.selectors` by the constructor. -/
def selectors : List String :=
  ["element", "id", "class", "attr", "pseudoClass", "pseudoElement", "combine"]

/-- The two errors the source throws, identified by their messages:
`orderViolation` is "Selector parts should be arranged in the following
order: ...", `duplicateFragment` is "Element, id and pseudo-element should
not occur more then one time inside the selector". -/
inductive SelErr : Type where
  | orderViolation : SelErr
  | duplicateFragment : SelErr
deriving DecidableEq, Repr

/-- State of a `Selector` instance: `index_of_selector`, `element_val`,
`id_val`, `classes`, `attributes`, `pseudoClasses`, `pseudoElement_val`,
`combinator`, `selector2` (in constructor order; the constant `selectors`
list is kept at top level). -/
inductive Selector : Type where
  | mk : Nat → Option String → Option String → List String → List String →
      List String → Option String → Option String → Option Selector → Selector

def Selector.index_of_selector : Selector → Nat
  | .mk i _ _ _ _ _ _ _ _ => i

def Selector.element_val : Selector → Option String
  | .mk _ e _ _ _ _ _ _ _ => e

def Selector.id_val : Selector → Option String
  | .mk _ _ v _ _ _ _ _ _ => v

def Selector.classes : Selector → List String
  | .mk _ _ _ cs _ _ _ _ _ => cs

def Selector.attributes : Selector → List String
  | .mk _ _ _ _ ats _ _ _ _ => ats

def Selector.pseudoClasses : Selector → List String
  | .mk _ _ _ _ _ ps _ _ _ => ps

def Selector.pseudoElement_val : Selector → Option String
  | .mk _ _ _ _ _ _ pe _ _ => pe

def Selector.combinator : Selector → Option String
  | .mk _ _ _ _ _ _ _ c _ => c

def Selector.selector2 : Selector → Option Selector
  | .mk _ _ _ _ _ _ _ _ n => n

/-- `new Selector()`: the constructor's initial state. -/
def Selector.new : Selector :=
  .mk 0 none none [] [] [] none none none

/-- `check_order(curr_elem)`: throws if the cursor is strictly greater than
the rank of `curr_elem` in `selectors`, otherwise assigns the cursor. -/
def Selector.check_order : Selector → String → Selector × Option SelErr
  | .mk i e v cs ats ps pe c n, curr =>
    if selectors.indexOf curr < i then
      (.mk i e v cs ats ps pe c n, some .orderViolation)
    else
      (.mk (selectors.indexOf curr) e v cs ats ps pe c n, none)

/-- `element(value)`. -/
def Selector.element (s : Selector) (value : String) : Selector × Option SelErr :=
  match s.check_order "element" with
  | (s1, some err) => (s1, some err)
  | (.mk i e v cs ats ps pe c n, none) =>
    if !truthy e then (.mk i (some value) v cs ats ps pe c n, none)
    else (.mk i e v cs ats ps pe c n, some .duplicateFragment)

/-- `id(value)`. -/
def Selector.id (s : Selector) (value : String) : Selector × Option SelErr :=
  match s.check_order "id" with
  | (s1, some err) => (s1, some err)
  | (.mk i e v cs ats ps pe c n, none) =>
    if !truthy v then (.mk i e (some value) cs ats ps pe c n, none)
    else (.mk i e v cs ats ps pe c n, some .duplicateFragment)

/-- `class(value)` (`class` is a reserved word in Lean, hence the tick). -/
def Selector.class' (s : Selector) (value : String) : Selector × Option SelErr :=
  match s.check_order "class" with
  | (s1, some err) => (s1, some err)
  | (.mk i e v cs ats ps pe c n, none) =>
    (.mk i e v (cs ++ [value]) ats ps pe c n, none)

/-- `attr(value)`. -/
def Selector.attr (s : Selector) (value : String) : Selector × Option SelErr :=
  match s.check_order "attr" with
  | (s1, some err) => (s1, some err)
  | (.mk i e v cs ats ps pe c n, none) =>
    (.mk i e v cs (ats ++ [value]) ps pe c n, none)

/-- `pseudoClass(value)`. -/
def Selector.pseudoClass (s : Selector) (value : String) : Selector × Option SelErr :=
  match s.check_order "pseudoClass" with
  | (s1, some err) => (s1, some err)
  | (.mk i e v cs ats ps pe c n, none) =>
    (.mk i e v cs ats (ps ++ [value]) pe c n, none)

/-- `pseudoElement(value)`. -/
def Selector.pseudoElement (s : Selector) (value : String) : Selector × Option SelErr :=
  match s.check_order "pseudoElement" with
  | (s1, some err) => (s1, some err)
  | (.mk i e v cs ats ps pe c n, none) =>
    if !truthy pe then (.mk i e v cs ats ps (some value) c n, none)
    else (.mk i e v cs ats ps pe c n, some .duplicateFragment)

/-- `combine(selector1, combinator, selector2)`: after the ordering check,
`Object.assign(this, selector1)` overwrites every field of the receiver
(including the cursor) with `selector1`'s, then `combinator` and
`selector2` are assigned. -/
def Selector.combine (s : Selector) (selector1 : Selector) (combinator : String)
    (selector2 : Selector) : Selector × Option SelErr :=
  match s.check_order "combine" with
  | (s1, some err) => (s1, some err)
  | (_, none) =>
    match selector1 with
    | .mk i e v cs ats ps pe _ _ =>
      (.mk i e v cs ats ps pe (some combinator) (some selector2), none)

/-- The non-recursive part of `stringify`: the fragments of the receiver
itself, before the combinator clause. -/
def stringifyBase (e v : Option String) (cs ats ps : List String)
    (pe : Option String) : String :=
  let result := ""
  let result := if truthy e then result ++ e.getD "" else result
  let result := if truthy v then result ++ "#" ++ v.getD "" else result
  let result := cs.foldl (fun r x => r ++ "." ++ x) result
  let result := ats.foldl (fun r x => r ++ "[" ++ x ++ "]") result
  let result := ps.foldl (fun r x => r ++ ":" ++ x) result
  if truthy pe then result ++ "::" ++ pe.getD "" else result

/-- `stringify()`: renders the fragments, then, when `this.combinator` and
`this.selector2` are both truthy, appends
`' ' + combinator + ' ' + selector2.stringify()`. -/
def Selector.stringify : Selector → String
  | .mk _ e v cs ats ps pe c n =>
    let result := stringifyBase e v cs ats ps pe
    match n with
    | some t => if truthy c then result ++ " " ++ c.getD "" ++ " " ++ t.stringify else result
    | none => result

/-- The receiver's own fragment rendering (what `stringify` produces before
the combinator clause). -/
def Selector.ownRender : Selector → String
  | .mk _ e v cs ats ps pe _ _ => stringifyBase e v cs ats ps pe

/-- The `cssSelectorBuilder` facade. -/
def cssSelectorBuilder.element (value : String) : Selector × Option SelErr :=
  Selector.new.element value

def cssSelectorBuilder.id (value : String) : Selector × Option SelErr :=
  Selector.new.id value

def cssSelectorBuilder.class' (value : String) : Selector × Option SelErr :=
  Selector.new.class' value

def cssSelectorBuilder.attr (value : String) : Selector × Option SelErr :=
  Selector.new.attr value

def cssSelectorBuilder.pseudoClass (value : String) : Selector × Option SelErr :=
  Selector.new.pseudoClass value

def cssSelectorBuilder.pseudoElement (value : String) : Selector × Option SelErr :=
  Selector.new.pseudoElement value

def cssSelectorBuilder.combine (selector1 : Selector) (combinator : String)
    (selector2 : Selector) : Selector × Option SelErr :=
  Selector.new.combine selector1 combinator selector2

/-- Sequencing of chained method calls: a thrown error aborts the chain. -/
def andThenS (p : Selector × Option SelErr)
    (f : Selector → Selector × Option SelErr) : Selector × Option SelErr :=
  match p with
  | (s, none) => f s
  | (s, some err) => (s, some err)

/-- The spec's concatenation rule of §4.1 read literally, with "if set"
meaning the field is present (non-`null`): `element` if set, `#` + `id` if
set, `.` + class for each class in order, `[` + attribute + `]` for each
attribute, `:` + pseudo-class for each pseudo-class, `::` + `pseudoElement`
if set, then `' ' + combinator + ' ' + next` rendered recursively when both
`combinator` and `next` are set. -/
def specRenderLiteral : Selector → String
  | .mk _ e v cs ats ps pe c n =>
    (match e with | some x => x | none => "")
    ++ (match v with | some x => "#" ++ x | none => "")
    ++ String.join (cs.map (fun x => "." ++ x))
    ++ String.join (ats.map (fun x => "[" ++ x ++ "]"))
    ++ String.join (ps.map (fun x => ":" ++ x))
    ++ (match pe with | some x => "::" ++ x | none => "")
    ++ (match c, n with
        | some cv, some t => " " ++ cv ++ " " ++ specRenderLiteral t
        | _, _ => "")

/-- The concatenation rule of §4.1 amended for JavaScript truthiness: the
single-valued fragments and the combinator contribute only when set to a
non-empty string. -/
def specRender : Selector → String
  | .mk _ e v cs ats ps pe c n =>
    (if truthy e then e.getD "" else "")
    ++ (if truthy v then "#" ++ v.getD "" else "")
    ++ String.join (cs.map (fun x => "." ++ x))
    ++ String.join (ats.map (fun x => "[" ++ x ++ "]"))
    ++ String.join (ps.map (fun x => ":" ++ x))
    ++ (if truthy pe then "::" ++ pe.getD "" else "")
    ++ (match n with
        | some t => if truthy c then " " ++ c.getD "" ++ " " ++ specRender t else ""
        | none => "")

theorem foldl_append_shift (l : List String) (r : String) :
    l.foldl (fun a s => a ++ s) r = r ++ l.foldl (fun a s => a ++ s) "" := by
  induction l generalizing r with
  | nil => simp
  | cons x xs ih =>
    simp only [List.foldl]
    rw [ih (r ++ x), ih ("" ++ x)]
    simp [String.append_assoc]

theorem foldl_append_join (f : String → String) (l : List String) (r : String) :
    l.foldl (fun acc x => acc ++ f x) r = r ++ String.join (l.map f) := by
  induction l generalizing r with
  | nil => simp [String.join]
  | cons x xs ih =>
    simp only [List.foldl, String.join, List.map]
    rw [ih (r ++ f x), foldl_append_shift (List.map f xs) ("" ++ f x)]
    simp [String.join, String.append_assoc]

theorem stringifyBase_eq (e v : Option String) (cs ats ps : List String)
    (pe : Option String) :
    stringifyBase e v cs ats ps pe =
      (if truthy e then e.getD "" else "")
      ++ (if truthy v then "#" ++ v.getD "" else "")
      ++ String.join (cs.map (fun x => "." ++ x))
      ++ String.join (ats.map (fun x => "[" ++ x ++ "]"))
      ++ String.join (ps.map (fun x => ":" ++ x))
      ++ (if truthy pe then "::" ++ pe.getD "" else "") := by
  simp only [stringifyBase, String.append_assoc]
  rw [foldl_append_join (fun x => "." ++ x),
    foldl_append_join (fun x => "[" ++ (x ++ "]")),
    foldl_append_join (fun x => ":" ++ x)]
  cases truthy e <;> cases truthy v <;> cases truthy pe <;>
    simp [String.append_assoc]

theorem stringify_eq_specRender (s : Selector) : s.stringify = specRender s := by
  induction s using Selector.stringify.induct <;>
    simp_all [Selector.stringify, specRender, stringifyBase_eq, String.append_assoc]

theorem idx_element : selectors.indexOf "element" = 0 := rfl

theorem idx_id : selectors.indexOf "id" = 1 := rfl

theorem idx_class : selectors.indexOf "class" = 2 := rfl

theorem idx_attr : selectors.indexOf "attr" = 3 := rfl

theorem idx_pseudoClass : selectors.indexOf "pseudoClass" = 4 := rfl

theorem idx_pseudoElement : selectors.indexOf "pseudoElement" = 5 := rfl

theorem idx_combine : selectors.indexOf "combine" = 6 := rfl

/-- Invariant maintained by every state an API user can construct: a truthy
`id_val` implies the cursor has reached rank 1, and a truthy
`pseudoElement_val` implies it has reached rank 5. -/
def SelInv (s : Selector) : Prop :=
  (truthy s.id_val = true → 1 ≤ s.index_of_selector) ∧
  (truthy s.pseudoElement_val = true → 5 ≤ s.index_of_selector)

/-- States reachable through the builder API: the fresh constructor state and
the post-state of any method call on reachable states (error or not — a
caller that catches the thrown error still holds the post-state receiver). -/
inductive Reachable : Selector → Prop where
  | base : Reachable Selector.new
  | element (s : Selector) (v : String) : Reachable s → Reachable (s.element v).1
  | id (s : Selector) (v : String) : Reachable s → Reachable (s.id v).1
  | class' (s : Selector) (v : String) : Reachable s → Reachable (s.class' v).1
  | attr (s : Selector) (v : String) : Reachable s → Reachable (s.attr v).1
  | pseudoClass (s : Selector) (v : String) : Reachable s → Reachable (s.pseudoClass v).1
  | pseudoElement (s : Selector) (v : String) : Reachable s → Reachable (s.pseudoElement v).1
  | combine (s l : Selector) (c : String) (r : Selector) :
      Reachable s → Reachable l → Reachable r → Reachable (s.combine l c r).1

/-- The state with the ordering cursor replaced. -/
def withCursor (k : Nat) : Selector → Selector
  | .mk _ e v cs ats ps pe c n => .mk k e v cs ats ps pe c n

def setElementVal (x : String) : Selector → Selector
  | .mk i _ v cs ats ps pe c n => .mk i (some x) v cs ats ps pe c n

def setIdVal (x : String) : Selector → Selector
  | .mk i e _ cs ats ps pe c n => .mk i e (some x) cs ats ps pe c n

def pushClass (x : String) : Selector → Selector
  | .mk i e v cs ats ps pe c n => .mk i e v (cs ++ [x]) ats ps pe c n

def pushAttribute (x : String) : Selector → Selector
  | .mk i e v cs ats ps pe c n => .mk i e v cs (ats ++ [x]) ps pe c n

def pushPseudoClass (x : String) : Selector → Selector
  | .mk i e v cs ats ps pe c n => .mk i e v cs ats (ps ++ [x]) pe c n

def setPseudoElementVal (x : String) : Selector → Selector
  | .mk i e v cs ats ps _ c n => .mk i e v cs ats ps (some x) c n

theorem element_spec (s : Selector) (x : String) :
    s.element x =
      if 0 < s.index_of_selector then (s, some .orderViolation)
      else if truthy s.element_val then (withCursor 0 s, some .duplicateFragment)
      else (setElementVal x (withCursor 0 s), none) := by
  obtain ⟨i, e, v, cs, ats, ps, pe, c, n⟩ := s
  simp only [Selector.element, Selector.check_order, idx_element,
    Selector.index_of_selector, Selector.element_val, withCursor, setElementVal]
  by_cases hc : 0 < i
  · simp [hc]
  · by_cases he : truthy e = true <;> simp [hc, he]

theorem id_spec (s : Selector) (x : String) :
    s.id x =
      if 1 < s.index_of_selector then (s, some .orderViolation)
      else if truthy s.id_val then (withCursor 1 s, some .duplicateFragment)
      else (setIdVal x (withCursor 1 s), none) := by
  obtain ⟨i, e, v, cs, ats, ps, pe, c, n⟩ := s
  simp only [Selector.id, Selector.check_order, idx_id,
    Selector.index_of_selector, Selector.id_val, withCursor, setIdVal]
  by_cases hc : 1 < i
  · simp [hc]
  · by_cases hv : truthy v = true <;> simp [hc, hv]

theorem class_spec (s : Selector) (x : String) :
    s.class' x =
      if 2 < s.index_of_selector then (s, some .orderViolation)
      else (pushClass x (withCursor 2 s), none) := by
  obtain ⟨i, e, v, cs, ats, ps, pe, c, n⟩ := s
  simp only [Selector.class', Selector.check_order, idx_class,
    Selector.index_of_selector, withCursor, pushClass]
  by_cases hc : 2 < i <;> simp [hc]

theorem attr_spec (s : Selector) (x : String) :
    s.attr x =
      if 3 < s.index_of_selector then (s, some .orderViolation)
      else (pushAttribute x (withCursor 3 s), none) := by
  obtain ⟨i, e, v, cs, ats, ps, pe, c, n⟩ := s
  simp only [Selector.attr, Selector.check_order, idx_attr,
    Selector.index_of_selector, withCursor, pushAttribute]
  by_cases hc : 3 < i <;> simp [hc]

theorem pseudoClass_spec (s : Selector) (x : String) :
    s.pseudoClass x =
      if 4 < s.index_of_selector then (s, some .orderViolation)
      else (pushPseudoClass x (withCursor 4 s), none) := by
  obtain ⟨i, e, v, cs, ats, ps, pe, c, n⟩ := s
  simp only [Selector.pseudoClass, Selector.check_order, idx_pseudoClass,
    Selector.index_of_selector, withCursor, pushPseudoClass]
  by_cases hc : 4 < i <;> simp [hc]

theorem pseudoElement_spec (s : Selector) (x : String) :
    s.pseudoElement x =
      if 5 < s.index_of_selector then (s, some .orderViolation)
      else if truthy s.pseudoElement_val then (withCursor 5 s, some .duplicateFragment)
      else (setPseudoElementVal x (withCursor 5 s), none) := by
  obtain ⟨i, e, v, cs, ats, ps, pe, c, n⟩ := s
  simp only [Selector.pseudoElement, Selector.check_order, idx_pseudoElement,
    Selector.index_of_selector, Selector.pseudoElement_val, withCursor, setPseudoElementVal]
  by_cases hc : 5 < i
  · simp [hc]
  · by_cases hp : truthy pe = true <;> simp [hc, hp]

theorem combine_spec (s l : Selector) (comb : String) (r : Selector) :
    s.combine l comb r =
      if 6 < s.index_of_selector then (s, some .orderViolation)
      else (Selector.mk l.index_of_selector l.element_val l.id_val l.classes
        l.attributes l.pseudoClasses l.pseudoElement_val (some comb) (some r), none) := by
  obtain ⟨i, e, v, cs, ats, ps, pe, c, n⟩ := s
  obtain ⟨li, le, lv, lcs, lats, lps, lpe, lc, ln⟩ := l
  simp only [Selector.combine, Selector.check_order, idx_combine,
    Selector.index_of_selector, Selector.element_val, Selector.id_val, Selector.classes,
    Selector.attributes, Selector.pseudoClasses, Selector.pseudoElement_val]
  by_cases hc : 6 < i <;> simp [hc]

theorem selInv_new : SelInv Selector.new := by
  simp [SelInv, Selector.new, Selector.id_val, Selector.pseudoElement_val, truthy]

theorem selInv_element (s : Selector) (x : String) (h : SelInv s) :
    SelInv (s.element x).1 := by
  obtain ⟨i, e, v, cs, ats, ps, pe, c, n⟩ := s
  obtain ⟨h1, h2⟩ := h
  simp only [Selector.id_val, Selector.pseudoElement_val, Selector.index_of_selector] at h1 h2
  rw [element_spec]
  simp only [Selector.index_of_selector, Selector.element_val]
  split_ifs with hc he <;>
    simp only [withCursor, setElementVal, SelInv, Selector.id_val,
      Selector.pseudoElement_val, Selector.index_of_selector] <;>
    constructor <;> intro hx <;>
    first
      | exact h1 hx
      | exact h2 hx
      | omega
      | (have hy := h1 hx; omega)
      | (have hy := h2 hx; omega)

theorem selInv_id (s : Selector) (x : String) (h : SelInv s) :
    SelInv (s.id x).1 := by
  obtain ⟨i, e, v, cs, ats, ps, pe, c, n⟩ := s
  obtain ⟨h1, h2⟩ := h
  simp only [Selector.id_val, Selector.pseudoElement_val, Selector.index_of_selector] at h1 h2
  rw [id_spec]
  simp only [Selector.index_of_selector, Selector.id_val]
  split_ifs with hc he <;>
    simp only [withCursor, setIdVal, SelInv, Selector.id_val,
      Selector.pseudoElement_val, Selector.index_of_selector] <;>
    constructor <;> intro hx <;>
    first
      | exact h1 hx
      | exact h2 hx
      | omega
      | (have hy := h1 hx; omega)
      | (have hy := h2 hx; omega)

theorem selInv_class (s : Selector) (x : String) (h : SelInv s) :
    SelInv (s.class' x).1 := by
  obtain ⟨i, e, v, cs, ats, ps, pe, c, n⟩ := s
  obtain ⟨h1, h2⟩ := h
  simp only [Selector.id_val, Selector.pseudoElement_val, Selector.index_of_selector] at h1 h2
  rw [class_spec]
  simp only [Selector.index_of_selector]
  split_ifs with hc <;>
    simp only [withCursor, pushClass, SelInv, Selector.id_val,
      Selector.pseudoElement_val, Selector.index_of_selector] <;>
    constructor <;> intro hx <;>
    first
      | exact h1 hx
      | exact h2 hx
      | omega
      | (have hy := h1 hx; omega)
      | (have hy := h2 hx; omega)

theorem selInv_attr (s : Selector) (x : String) (h : SelInv s) :
    SelInv (s.attr x).1 := by
  obtain ⟨i, e, v, cs, ats, ps, pe, c, n⟩ := s
  obtain ⟨h1, h2⟩ := h
  simp only [Selector.id_val, Selector.pseudoElement_val, Selector.index_of_selector] at h1 h2
  rw [attr_spec]
  simp only [Selector.index_of_selector]
  split_ifs with hc <;>
    simp only [withCursor, pushAttribute, SelInv, Selector.id_val,
      Selector.pseudoElement_val, Selector.index_of_selector] <;>
    constructor <;> intro hx <;>
    first
      | exact h1 hx
      | exact h2 hx
      | omega
      | (have hy := h1 hx; omega)
      | (have hy := h2 hx; omega)

theorem selInv_pseudoClass (s : Selector) (x : String) (h : SelInv s) :
    SelInv (s.pseudoClass x).1 := by
  obtain ⟨i, e, v, cs, ats, ps, pe, c, n⟩ := s
  obtain ⟨h1, h2⟩ := h
  simp only [Selector.id_val, Selector.pseudoElement_val, Selector.index_of_selector] at h1 h2
  rw [pseudoClass_spec]
  simp only [Selector.index_of_selector]
  split_ifs with hc <;>
    simp only [withCursor, pushPseudoClass, SelInv, Selector.id_val,
      Selector.pseudoElement_val, Selector.index_of_selector] <;>
    constructor <;> intro hx <;>
    first
      | exact h1 hx
      | exact h2 hx
      | omega
      | (have hy := h1 hx; omega)
      | (have hy := h2 hx; omega)

theorem selInv_pseudoElement (s : Selector) (x : String) (h : SelInv s) :
    SelInv (s.pseudoElement x).1 := by
  obtain ⟨i, e, v, cs, ats, ps, pe, c, n⟩ := s
  obtain ⟨h1, h2⟩ := h
  simp only [Selector.id_val, Selector.pseudoElement_val, Selector.index_of_selector] at h1 h2
  rw [pseudoElement_spec]
  simp only [Selector.index_of_selector, Selector.pseudoElement_val]
  split_ifs with hc he <;>
    simp only [withCursor, setPseudoElementVal, SelInv, Selector.id_val,
      Selector.pseudoElement_val, Selector.index_of_selector] <;>
    constructor <;> intro hx <;>
    first
      | exact h1 hx
      | exact h2 hx
      | omega
      | (have hy := h1 hx; omega)
      | (have hy := h2 hx; omega)

theorem selInv_combine (s l : Selector) (comb : String) (r : Selector)
    (hs : SelInv s) (hl : SelInv l) : SelInv (s.combine l comb r).1 := by
  rw [combine_spec]
  split_ifs with hc
  · exact hs
  · obtain ⟨hl1, hl2⟩ := hl
    exact ⟨by simpa [SelInv, Selector.id_val, Selector.index_of_selector] using hl1,
      by simpa [SelInv, Selector.pseudoElement_val, Selector.index_of_selector] using hl2⟩

theorem reachable_selInv (s : Selector) (h : Reachable s) : SelInv s := by
  induction h with
  | base => exact selInv_new
  | element s v _ ih => exact selInv_element s v ih
  | id s v _ ih => exact selInv_id s v ih
  | class' s v _ ih => exact selInv_class s v ih
  | attr s v _ ih => exact selInv_attr s v ih
  | pseudoClass s v _ ih => exact selInv_pseudoClass s v ih
  | pseudoElement s v _ ih => exact selInv_pseudoElement s v ih
  | combine s l c r _ _ _ ihs ihl _ => exact selInv_combine s l c r ihs ihl

/-- `stringify()` with the receiver threaded explicitly, statement by
statement: the method reads the fields, recursively stringifies
`this.selector2` (whose post-state is what the receiver's `selector2` field
then refers to), and performs no assignment and no throw. -/
def Selector.stringifyCall : Selector → String × Selector
  | .mk i e v cs ats ps pe c n =>
    let result := stringifyBase e v cs ats ps pe
    match n with
    | some t =>
      if truthy c then
        match t.stringifyCall with
        | (sub, t2) =>
          (result ++ " " ++ c.getD "" ++ " " ++ sub, .mk i e v cs ats ps pe c (some t2))
      else (result, .mk i e v cs ats ps pe c (some t))
    | none => (result, .mk i e v cs ats ps pe c none)

theorem stringifyCall_eq (s : Selector) : s.stringifyCall = (s.stringify, s) := by
  induction s using Selector.stringifyCall.induct <;>
    simp_all [Selector.stringifyCall, Selector.stringify]

/-- C1 counterexample: `id('')` succeeds and yields a state whose `id` is
set (to the empty string), but `stringify()` renders `""` while the claim's
concatenation rule (`'#' + id` whenever `id` is set) renders `"#"`. -/
theorem C1_render_rule_cex :
    (Selector.new.id "").2 = none ∧
    (Selector.new.id "").1.id_val = some "" ∧
    (Selector.new.id "").1.stringify = "" ∧
    specRenderLiteral (Selector.new.id "").1 = "#" ∧
    (Selector.new.id "").1.stringify ≠ specRenderLiteral (Selector.new.id "").1 := by
  decide

/-- C1 (amended): for every Selector state, `stringify()` returns exactly
the §4.1 concatenation where each single-valued fragment (`element`, `id`,
`pseudoElement`) and the combinator clause contribute only when the stored
string is non-empty (JavaScript truthiness): element, then `#` + id, then
`.` + class per class in order, `[` + attribute + `]` per attribute,
`:` + pseudo-class per pseudo-class, `::` + pseudoElement, then
`' ' + combinator + ' '` + the recursive rendering of `next` when the
combinator is non-empty and `next` is present — character for character. -/
theorem C1_render_rule (s : Selector) : s.stringify = specRender s :=
  stringify_eq_specRender s

/-- C2 counterexample: on `element('a').element('b')` the cursor (0) is not
strictly greater than the rank of `element` (0), so by the claim the second
call should succeed — but it raises `DuplicateFragmentError`. -/
theorem C2_order_rule_cex :
    (Selector.new.element "a").1.index_of_selector ≤ selectors.indexOf "element" ∧
    ((Selector.new.element "a").1.element "b").2 = some SelErr.duplicateFragment := by
  decide

/-- C2 (amended): a fragment call of kind K with rank r raises
`OrderViolationError` if and only if the cursor is strictly greater than r;
otherwise the ordering check passes and the cursor becomes r — though the
call may still raise `DuplicateFragmentError` for the single-occurrence
kinds. For `combine` (rank 6) the ordering check never fires on a cursor in
range, and the final cursor is the left operand's cursor (copied by the
field merge), not 6. -/
theorem C2_order_rule (s l : Selector) (x comb : String) (r : Selector) :
    (((s.element x).2 = some SelErr.orderViolation) ↔ 0 < s.index_of_selector) ∧
    (¬ 0 < s.index_of_selector → (s.element x).1.index_of_selector = 0) ∧
    (((s.id x).2 = some SelErr.orderViolation) ↔ 1 < s.index_of_selector) ∧
    (¬ 1 < s.index_of_selector → (s.id x).1.index_of_selector = 1) ∧
    (((s.class' x).2 = some SelErr.orderViolation) ↔ 2 < s.index_of_selector) ∧
    (¬ 2 < s.index_of_selector → (s.class' x).1.index_of_selector = 2) ∧
    (((s.attr x).2 = some SelErr.orderViolation) ↔ 3 < s.index_of_selector) ∧
    (¬ 3 < s.index_of_selector → (s.attr x).1.index_of_selector = 3) ∧
    (((s.pseudoClass x).2 = some SelErr.orderViolation) ↔ 4 < s.index_of_selector) ∧
    (¬ 4 < s.index_of_selector → (s.pseudoClass x).1.index_of_selector = 4) ∧
    (((s.pseudoElement x).2 = some SelErr.orderViolation) ↔ 5 < s.index_of_selector) ∧
    (¬ 5 < s.index_of_selector → (s.pseudoElement x).1.index_of_selector = 5) ∧
    (((s.combine l comb r).2 = some SelErr.orderViolation) ↔ 6 < s.index_of_selector) ∧
    (¬ 6 < s.index_of_selector →
      (s.combine l comb r).1.index_of_selector = l.index_of_selector) := by
  obtain ⟨i, e, v, cs, ats, ps, pe, c, n⟩ := s
  refine ⟨?_, ?_, ?_, ?_, ?_, ?_, ?_, ?_, ?_, ?_, ?_, ?_, ?_, ?_⟩ <;>
    simp only [element_spec, id_spec, class_spec, attr_spec, pseudoClass_spec,
      pseudoElement_spec, combine_spec, Selector.index_of_selector, Selector.element_val,
      Selector.id_val, Selector.pseudoElement_val] <;>
    split_ifs <;>
    simp_all [withCursor, setElementVal, setIdVal, pushClass, pushAttribute,
      pushPseudoClass, setPseudoElementVal, Selector.index_of_selector]

/-- C2 witness: on a builder whose cursor is at rank 3 (after `attr`),
`class(...)` (rank 2) raises `OrderViolationError`. -/
theorem C2_order_rule_witness :
    ((Selector.class' (Selector.new.attr "x").1 "c").2 = some SelErr.orderViolation) :=
  (C2_order_rule (Selector.new.attr "x").1 Selector.new "c" "+" Selector.new).2.2.2.2.1.mpr
    (by decide)

/-- C3 counterexample: after `id('')` the `id` field has been set once (to
the empty string), yet a second `id('x')` raises no error at all — it
silently overwrites the field, because the duplicate check tests JavaScript
truthiness, not presence. -/
theorem C3_single_occurrence_cex :
    (Selector.new.id "").2 = none ∧
    (Selector.new.id "").1.id_val = some "" ∧
    ((Selector.new.id "").1.id "x").2 = none ∧
    ((Selector.new.id "").1.id "x").1.id_val = some "x" := by
  decide

/-- C3 (amended): once `element`, `id`, or `pseudoElement` holds a truthy
(non-empty) value, the corresponding setter always raises an error and
never changes the field — `DuplicateFragmentError` when the ordering check
passes (cursor at most the kind's rank), `OrderViolationError` otherwise;
so each of these three fields is set to a non-empty value at most once per
instance (absent `combine`, which copies fields wholesale). -/
theorem C3_single_occurrence (s : Selector) (x : String) :
    (truthy s.element_val = true →
      (s.element x).2.isSome = true ∧
      (s.element x).1.element_val = s.element_val ∧
      (¬ 0 < s.index_of_selector → (s.element x).2 = some SelErr.duplicateFragment)) ∧
    (truthy s.id_val = true →
      (s.id x).2.isSome = true ∧
      (s.id x).1.id_val = s.id_val ∧
      (¬ 1 < s.index_of_selector → (s.id x).2 = some SelErr.duplicateFragment)) ∧
    (truthy s.pseudoElement_val = true →
      (s.pseudoElement x).2.isSome = true ∧
      (s.pseudoElement x).1.pseudoElement_val = s.pseudoElement_val ∧
      (¬ 5 < s.index_of_selector →
        (s.pseudoElement x).2 = some SelErr.duplicateFragment)) := by
  obtain ⟨i, e, v, cs, ats, ps, pe, c, n⟩ := s
  refine ⟨?_, ?_, ?_⟩ <;> intro ht <;>
    simp only [element_spec, id_spec, pseudoElement_spec, Selector.index_of_selector,
      Selector.element_val, Selector.id_val, Selector.pseudoElement_val] at ht ⊢ <;>
    split_ifs <;>
    simp_all [withCursor, setElementVal, setIdVal, setPseudoElementVal,
      Selector.element_val, Selector.id_val, Selector.pseudoElement_val]

/-- C3 witness: `id('main')` then `id('x')` raises `DuplicateFragmentError`
and keeps `id = 'main'`. -/
theorem C3_single_occurrence_witness :
    ((Selector.new.id "main").1.id "x").1.id_val = (Selector.new.id "main").1.id_val ∧
    ((Selector.new.id "main").1.id "x").2 = some SelErr.duplicateFragment :=
  ⟨((C3_single_occurrence (Selector.new.id "main").1 "x").2.1 (by decide)).2.1,
    ((C3_single_occurrence (Selector.new.id "main").1 "x").2.1 (by decide)).2.2 (by decide)⟩

theorem ownRender_mk (i : Nat) (e v : Option String) (cs ats ps : List String)
    (pe : Option String) (c : Option String) (n : Option Selector) :
    (Selector.mk i e v cs ats ps pe c n).ownRender = stringifyBase e v cs ats ps pe := rfl

theorem stringify_mk_combined (i : Nat) (e v : Option String) (cs ats ps : List String)
    (pe : Option String) (comb : String) (r : Selector) (h : comb ≠ "") :
    (Selector.mk i e v cs ats ps pe (some comb) (some r)).stringify
      = stringifyBase e v cs ats ps pe ++ " " ++ comb ++ " " ++ r.stringify := by
  simp [Selector.stringify, truthy, h]

theorem stringify_mk_combined_empty (i : Nat) (e v : Option String)
    (cs ats ps : List String) (pe : Option String) (r : Selector) :
    (Selector.mk i e v cs ats ps pe (some "") (some r)).stringify
      = stringifyBase e v cs ats ps pe := by
  simp [Selector.stringify, truthy]

theorem stringify_no_tail (i : Nat) (e v : Option String) (cs ats ps : List String)
    (pe : Option String) (c : Option String) (n : Option Selector)
    (h : n = none ∨ truthy c = false) :
    (Selector.mk i e v cs ats ps pe c n).stringify = stringifyBase e v cs ats ps pe := by
  rcases h with h | h
  · subst h; rfl
  · cases n with
    | none => rfl
    | some t => simp [Selector.stringify, h]

/-- C4 counterexample: when the left operand is itself a combined selector,
`combine` renders differently from `render(left) + ' ' + symbol + ' ' +
render(right)`: the left operand's own combinator and `next` are
overwritten by the field copy, so its tail is dropped. -/
theorem C4_combine_copy_cex :
    (cssSelectorBuilder.combine
      (cssSelectorBuilder.combine (cssSelectorBuilder.element "a").1 "+"
        (cssSelectorBuilder.element "b").1).1
      ">" (cssSelectorBuilder.element "c").1).1.stringify = "a > c" ∧
    (cssSelectorBuilder.combine (cssSelectorBuilder.element "a").1 "+"
        (cssSelectorBuilder.element "b").1).1.stringify
      ++ " " ++ ">" ++ " " ++ (cssSelectorBuilder.element "c").1.stringify = "a + b > c" ∧
    (cssSelectorBuilder.combine
      (cssSelectorBuilder.combine (cssSelectorBuilder.element "a").1 "+"
        (cssSelectorBuilder.element "b").1).1
      ">" (cssSelectorBuilder.element "c").1).1.stringify
      ≠ (cssSelectorBuilder.combine (cssSelectorBuilder.element "a").1 "+"
          (cssSelectorBuilder.element "b").1).1.stringify
        ++ " " ++ ">" ++ " " ++ (cssSelectorBuilder.element "c").1.stringify := by
  decide

/-- C4 (amended): `combine(left, symbol, right)` always succeeds; the
resulting builder's fragment state (element, id, classes, attributes,
pseudo-classes, pseudo-element) equals `left`'s, its combinator is `symbol`
and its `next` is `right`; and its rendering equals
`render(left) + ' ' + symbol + ' ' + render(right)` provided the symbol is
non-empty and `left`'s own combinator clause is inert (no `next`, or a
falsy combinator). The spec's concrete example
`combine(element('div').id('main'), '+', element('table').id('data'))`
renders `'div#main + table#data'`. -/
theorem C4_combine_copy (l r : Selector) (comb : String) :
    (cssSelectorBuilder.combine l comb r).2 = none ∧
    (cssSelectorBuilder.combine l comb r).1.element_val = l.element_val ∧
    (cssSelectorBuilder.combine l comb r).1.id_val = l.id_val ∧
    (cssSelectorBuilder.combine l comb r).1.classes = l.classes ∧
    (cssSelectorBuilder.combine l comb r).1.attributes = l.attributes ∧
    (cssSelectorBuilder.combine l comb r).1.pseudoClasses = l.pseudoClasses ∧
    (cssSelectorBuilder.combine l comb r).1.pseudoElement_val = l.pseudoElement_val ∧
    (cssSelectorBuilder.combine l comb r).1.combinator = some comb ∧
    (cssSelectorBuilder.combine l comb r).1.selector2 = some r ∧
    (comb ≠ "" → (l.selector2 = none ∨ truthy l.combinator = false) →
      (cssSelectorBuilder.combine l comb r).1.stringify
        = l.stringify ++ " " ++ comb ++ " " ++ r.stringify) ∧
    (cssSelectorBuilder.combine
      (andThenS (cssSelectorBuilder.element "div") (fun q => q.id "main")).1 "+"
      (andThenS (cssSelectorBuilder.element "table") (fun q => q.id "data")).1).1.stringify
      = "div#main + table#data" := by
  obtain ⟨li, le, lv, lcs, lats, lps, lpe, lc, ln⟩ := l
  refine ⟨?_, ?_, ?_, ?_, ?_, ?_, ?_, ?_, ?_, ?_, by decide⟩ <;>
    simp only [cssSelectorBuilder.combine, combine_spec, Selector.new,
      Selector.index_of_selector, Selector.element_val, Selector.id_val, Selector.classes,
      Selector.attributes, Selector.pseudoClasses, Selector.pseudoElement_val,
      Selector.combinator, Selector.selector2] <;>
    simp only [show ¬ (6 < 0) from by omega, if_false]
  all_goals first
    | rfl
    | (intro hne hinert
       rw [stringify_mk_combined _ _ _ _ _ _ _ _ _ hne,
         stringify_no_tail _ _ _ _ _ _ _ _ _ hinert])

/-- C4 witness: combining `element('div').id('main')` with
`element('table').id('data')` via `'+'` satisfies the rendering equation. -/
theorem C4_combine_copy_witness :
    (cssSelectorBuilder.combine
      (andThenS (cssSelectorBuilder.element "div") (fun q => q.id "main")).1 "+"
      (andThenS (cssSelectorBuilder.element "table") (fun q => q.id "data")).1).1.stringify
      = (andThenS (cssSelectorBuilder.element "div") (fun q => q.id "main")).1.stringify
        ++ " " ++ "+" ++ " "
        ++ (andThenS (cssSelectorBuilder.element "table") (fun q => q.id "data")).1.stringify :=
  (C4_combine_copy (andThenS (cssSelectorBuilder.element "div") (fun q => q.id "main")).1
    (andThenS (cssSelectorBuilder.element "table") (fun q => q.id "data")).1
    "+").2.2.2.2.2.2.2.2.2.1 (by decide) (Or.inl rfl)

/-- C5 counterexample: the empty string is accepted as a combinator symbol
without error, but it does not appear in the rendered output between the
two operands — the whole combinator clause (right operand included) is
suppressed, because the rendering tests the combinator for truthiness. -/
theorem C5_verbatim_combinator_cex :
    (cssSelectorBuilder.combine (cssSelectorBuilder.element "a").1 ""
      (cssSelectorBuilder.element "b").1).2 = none ∧
    (cssSelectorBuilder.combine (cssSelectorBuilder.element "a").1 ""
      (cssSelectorBuilder.element "b").1).1.stringify = "a" ∧
    (cssSelectorBuilder.combine (cssSelectorBuilder.element "a").1 ""
      (cssSelectorBuilder.element "b").1).1.stringify
      ≠ "a" ++ " " ++ "" ++ " " ++ "b" := by
  decide

/-- C5 (amended): every string — multi-character, invalid, or otherwise
non-CSS — is accepted as the combinator symbol without validation or error;
every non-empty symbol appears verbatim in the rendered output between the
two operands, while the empty symbol, though accepted, suppresses the
combinator clause and the right operand entirely. -/
theorem C5_verbatim_combinator (l r : Selector) (comb : String) :
    (cssSelectorBuilder.combine l comb r).2 = none ∧
    (comb ≠ "" →
      (cssSelectorBuilder.combine l comb r).1.stringify
        = l.ownRender ++ " " ++ comb ++ " " ++ r.stringify) ∧
    (comb = "" → (cssSelectorBuilder.combine l comb r).1.stringify = l.ownRender) := by
  obtain ⟨li, le, lv, lcs, lats, lps, lpe, lc, ln⟩ := l
  simp only [cssSelectorBuilder.combine, combine_spec, Selector.new,
    Selector.index_of_selector, Selector.element_val, Selector.id_val, Selector.classes,
    Selector.attributes, Selector.pseudoClasses, Selector.pseudoElement_val,
    show ¬ (6 < 0) from by omega, if_false]
  refine ⟨trivial, fun hne => ?_, fun hz => ?_⟩
  · rw [stringify_mk_combined _ _ _ _ _ _ _ _ _ hne, ownRender_mk]
  · subst hz
    rw [stringify_mk_combined_empty, ownRender_mk]

/-- C5 witness: the invalid multi-character combinator `'>>'` is accepted
and embedded verbatim. -/
theorem C5_verbatim_combinator_witness :
    (cssSelectorBuilder.combine (cssSelectorBuilder.element "a").1 ">>"
      (cssSelectorBuilder.element "b").1).1.stringify
      = (cssSelectorBuilder.element "a").1.ownRender ++ " " ++ ">>" ++ " "
        ++ (cssSelectorBuilder.element "b").1.stringify :=
  (C5_verbatim_combinator (cssSelectorBuilder.element "a").1
    (cssSelectorBuilder.element "b").1 ">>").2.1 (by decide)

/-- C6 counterexample: after `combine(element('div'), '+', element('p'))`
the fragment call `id('x')` does not raise `OrderViolationError` — it
succeeds, because the field merge overwrote the rank-6 cursor with the left
operand's cursor (0). -/
theorem C6_terminal_cex :
    ((cssSelectorBuilder.combine (cssSelectorBuilder.element "div").1 "+"
      (cssSelectorBuilder.element "p").1).1.id "x").2 = none ∧
    ((cssSelectorBuilder.combine (cssSelectorBuilder.element "div").1 "+"
      (cssSelectorBuilder.element "p").1).1.id "x").1.stringify = "div#x + p" := by
  decide

/-- C6 (amended): `combine` is not terminal: the facade's `combine` never
raises `OrderViolationError`, and the combined builder's ordering cursor
equals the left operand's cursor (copied by the field merge), so a
subsequent fragment call raises `OrderViolationError` exactly when the left
operand's cursor exceeds that call's rank — not unconditionally. -/
theorem C6_terminal (l r : Selector) (comb : String) (x : String) :
    (cssSelectorBuilder.combine l comb r).2 = none ∧
    (cssSelectorBuilder.combine l comb r).1.index_of_selector = l.index_of_selector ∧
    (((cssSelectorBuilder.combine l comb r).1.element x).2 = some SelErr.orderViolation
      ↔ 0 < l.index_of_selector) ∧
    (((cssSelectorBuilder.combine l comb r).1.id x).2 = some SelErr.orderViolation
      ↔ 1 < l.index_of_selector) ∧
    (((cssSelectorBuilder.combine l comb r).1.class' x).2 = some SelErr.orderViolation
      ↔ 2 < l.index_of_selector) ∧
    (((cssSelectorBuilder.combine l comb r).1.attr x).2 = some SelErr.orderViolation
      ↔ 3 < l.index_of_selector) ∧
    (((cssSelectorBuilder.combine l comb r).1.pseudoClass x).2 = some SelErr.orderViolation
      ↔ 4 < l.index_of_selector) ∧
    (((cssSelectorBuilder.combine l comb r).1.pseudoElement x).2 = some SelErr.orderViolation
      ↔ 5 < l.index_of_selector) := by
  obtain ⟨li, le, lv, lcs, lats, lps, lpe, lc, ln⟩ := l
  refine ⟨?_, ?_, ?_, ?_, ?_, ?_, ?_, ?_⟩ <;>
    simp only [cssSelectorBuilder.combine, combine_spec, Selector.new,
      Selector.index_of_selector, Selector.element_val, Selector.id_val, Selector.classes,
      Selector.attributes, Selector.pseudoClasses, Selector.pseudoElement_val,
      show ¬ (6 < 0) from by omega, if_false, element_spec, id_spec, class_spec,
      attr_spec, pseudoClass_spec, pseudoElement_spec] <;>
    split_ifs <;>
    simp_all [withCursor, setElementVal, setIdVal, pushClass, pushAttribute,
      pushPseudoClass, setPseudoElementVal, Selector.index_of_selector]

/-- C6 witness: with a left operand whose cursor is 0
(`element('div')`), `id` on the combined builder passes the ordering
check (the error, were there one, would have to satisfy `0 < 0`). -/
theorem C6_terminal_witness :
    ¬ ((cssSelectorBuilder.combine (cssSelectorBuilder.element "div").1 "+"
      (cssSelectorBuilder.element "p").1).1.id "x").2 = some SelErr.orderViolation :=
  fun h =>
    absurd ((C6_terminal (cssSelectorBuilder.element "div").1
      (cssSelectorBuilder.element "p").1 "+" "x").2.2.2.1.mp h) (by decide)

/-- C7: in every rendered combined selector whose combinator is one of the
four CSS combinators `' '`, `'+'`, `'~'`, `'>'`, the combinator is
surrounded by exactly one space on each side; for the descendant
combinator `' '` this yields three consecutive spaces between the
operands' renderings; and nested combines render right-associated as
`A <op1> B <op2> C` exactly as constructed. -/
theorem C7_combinator_spacing (s t : Selector) (c : String)
    (hmem : c = " " ∨ c = "+" ∨ c = "~" ∨ c = ">")
    (hc : s.combinator = some c) (hn : s.selector2 = some t) :
    s.stringify = s.ownRender ++ " " ++ c ++ " " ++ t.stringify ∧
    (c = " " → s.stringify = s.ownRender ++ "   " ++ t.stringify) ∧
    (cssSelectorBuilder.combine (cssSelectorBuilder.element "a").1 "+"
      (cssSelectorBuilder.combine (cssSelectorBuilder.element "b").1 "~"
        (cssSelectorBuilder.element "c").1).1).1.stringify = "a + b ~ c" ∧
    (cssSelectorBuilder.combine (cssSelectorBuilder.element "a").1 " "
      (cssSelectorBuilder.element "b").1).1.stringify = "a   b" := by
  obtain ⟨i, e, v, cs, ats, ps, pe, c0, n0⟩ := s
  simp only [Selector.combinator, Selector.selector2] at hc hn
  subst hc; subst hn
  have hne : c ≠ "" := by rcases hmem with h | h | h | h <;> simp [h]
  have hmain := stringify_mk_combined i e v cs ats ps pe c t hne
  refine ⟨by rw [hmain, ownRender_mk], fun hsp => ?_, by decide, by decide⟩
  subst hsp
  rw [hmain, ownRender_mk,
    String.append_assoc (stringifyBase e v cs ats ps pe ++ " ") " " " ",
    String.append_assoc (stringifyBase e v cs ats ps pe) " " (" " ++ " "),
    show (" " ++ (" " ++ " ") : String) = "   " from by decide]

/-- C7 witness: the descendant combinator between `element('a')` and
`element('b')` renders with three consecutive spaces. -/
theorem C7_combinator_spacing_witness :
    (cssSelectorBuilder.combine (cssSelectorBuilder.element "a").1 " "
      (cssSelectorBuilder.element "b").1).1.stringify
      = (cssSelectorBuilder.combine (cssSelectorBuilder.element "a").1 " "
          (cssSelectorBuilder.element "b").1).1.ownRender ++ "   "
        ++ (cssSelectorBuilder.element "b").1.stringify :=
  (C7_combinator_spacing
    (cssSelectorBuilder.combine (cssSelectorBuilder.element "a").1 " "
      (cssSelectorBuilder.element "b").1).1
    (cssSelectorBuilder.element "b").1 " " (Or.inl rfl) rfl rfl).2.1 rfl

/-- C8: `stringify()` never fails, does not mutate the receiver, and is
idempotent: the call (receiver threaded explicitly) returns the pure
rendering together with an unchanged receiver, and running it again on that
receiver yields the identical result. -/
theorem C8_render_pure (s : Selector) :
    s.stringifyCall = (s.stringify, s) ∧
    (s.stringifyCall.2).stringifyCall = s.stringifyCall := by
  have h := stringifyCall_eq s
  refine ⟨h, ?_⟩
  rw [h]
  exact h

/-- C10: on every API-reachable receiver, whenever a fragment call
(`element`, `id`, `class`, `attr`, `pseudoClass`, `pseudoElement`) raises
an error, the receiver's entire observable state — cursor included — is
exactly what it was before the call. -/
theorem C10_error_atomicity (s : Selector) (h : Reachable s) (x : String) :
    ((s.element x).2.isSome = true → (s.element x).1 = s) ∧
    ((s.id x).2.isSome = true → (s.id x).1 = s) ∧
    ((s.class' x).2.isSome = true → (s.class' x).1 = s) ∧
    ((s.attr x).2.isSome = true → (s.attr x).1 = s) ∧
    ((s.pseudoClass x).2.isSome = true → (s.pseudoClass x).1 = s) ∧
    ((s.pseudoElement x).2.isSome = true → (s.pseudoElement x).1 = s) := by
  have hinv := reachable_selInv s h
  obtain ⟨i, e, v, cs, ats, ps, pe, c, n⟩ := s
  obtain ⟨h1, h2⟩ := hinv
  simp only [Selector.id_val, Selector.pseudoElement_val, Selector.index_of_selector] at h1 h2
  refine ⟨?_, ?_, ?_, ?_, ?_, ?_⟩ <;>
    simp only [element_spec, id_spec, class_spec, attr_spec, pseudoClass_spec,
      pseudoElement_spec, Selector.index_of_selector, Selector.element_val,
      Selector.id_val, Selector.pseudoElement_val] <;>
    split_ifs <;>
    intro hx <;>
    simp_all [withCursor, setElementVal, setIdVal, pushClass, pushAttribute,
      pushPseudoClass, setPseudoElementVal, Selector.mk.injEq] <;>
    omega

/-- C10 witness: on the reachable builder `attr('x')` (cursor 3), the
erroring call `class('c')` leaves the state untouched. -/
theorem C10_error_atomicity_witness :
    ((Selector.class' (Selector.new.attr "x").1 "c").2.isSome = true) ∧
    ((Selector.class' (Selector.new.attr "x").1 "c").1 = (Selector.new.attr "x").1) :=
  ⟨by decide,
    (C10_error_atomicity (Selector.new.attr "x").1
      (Reachable.attr Selector.new "x" Reachable.base) "c").2.2.1 (by decide)⟩

/-- C9: the two concrete facade chains of the spec render exactly the
specified strings (and raise no error along the way). -/
theorem C9_facade_examples :
    ((andThenS (andThenS (cssSelectorBuilder.element "a")
        (fun s => s.attr "href$=\".png\"")) (fun s => s.pseudoClass "focus")).2 = none ∧
      (andThenS (andThenS (cssSelectorBuilder.element "a")
        (fun s => s.attr "href$=\".png\"")) (fun s => s.pseudoClass "focus")).1.stringify
        = "a[href$=\".png\"]:focus") ∧
    ((andThenS (andThenS (cssSelectorBuilder.id "main")
        (fun s => s.class' "container")) (fun s => s.class' "editable")).2 = none ∧
      (andThenS (andThenS (cssSelectorBuilder.id "main")
        (fun s => s.class' "container")) (fun s => s.class' "editable")).1.stringify
        = "#main.container.editable") := by
  decide
